import Mathlib

/-!
Verification development for the work-order management bot (`src/bot_webhook.py`).

The Python program is shallowly embedded: each handler that a claim depends on
becomes an executable Lean function over explicit session/store state.
Python dictionaries (`context.user_data`, `os_data`, Firestore documents) are
modelled as association lists from string keys to field values, with lookup
semantics matching CPython dict access (key order may differ; all properties
are stated through lookups).  Conversation-state constants mirror the
`range(26)` tuple at the top of the source, with `ConversationHandler.END`
as `-1`, hence states are integers.
-/

/-- Field values that occur in the program's dictionaries: strings, date-only
datetimes (values produced by `datetime.strptime(_, '%d/%m/%Y')`), full
timestamps (`datetime.now()` written into `created_at` / `updated_at` /
`run_time`), and Python `None`. -/
inductive FVal where
  | s : String → FVal
  | date : Nat → Nat → Nat → FVal
  | time : Int → FVal
  | null : FVal
deriving DecidableEq

/-- A Python dict with string keys, as an association list. -/
abbrev Dict (α : Type) := List (String × α)

/-- Dict lookup: first binding for the key, `none` when absent. -/
def alookup {α : Type} : Dict α → String → Option α
  | [], _ => none
  | p :: r, k => if p.1 = k then some p.2 else alookup r k

/-- Dict assignment `d[k] = v`.  The entry is prepended and stale bindings
dropped; this is lookup-equivalent to CPython assignment (key order, which no
claim observes, may differ). -/
def aset {α : Type} (l : Dict α) (k : String) (v : α) : Dict α :=
  (k, v) :: l.filter (fun p => !(p.1 = k : Bool))

/-- Dict deletion `del d[k]` (no-op when the key is absent, which is how the
source guards every `del` it performs). -/
def adelete {α : Type} (l : Dict α) (k : String) : Dict α :=
  l.filter (fun p => !(p.1 = k : Bool))

/-- A work-order document (`os_data`): field name to value. -/
abbrev Rec := Dict FVal

/-- `old.update(new)` on dicts: keys of `new` overwrite, all other keys of
`old` retain their prior values (lookup-equivalent to CPython
`dict.update`). -/
def dmerge (old new : Rec) : Rec :=
  old.filter (fun p => (alookup new p.1).isNone) ++ new

/-- The Firestore collection `ordens_servico`, keyed by document id, which the
source always takes to be the order number (`get_os_ref`). -/
abbrev Store := Dict Rec

-- Conversation states, in the order of the `range(26)` tuple in the source.

def MENU : Int := 0
def PROMPT_OS_ID : Int := 1
def PROMPT_CHAMADO : Int := 2
def PROMPT_PREFIXO : Int := 3
def PROMPT_DISTANCIA : Int := 4
def PROMPT_DESCRICAO : Int := 5
def PROMPT_CRITICIDADE : Int := 6
def PROMPT_TIPO : Int := 7
def PROMPT_PRAZO : Int := 8
def PROMPT_SITUACAO : Int := 9
def PROMPT_TECNICO : Int := 10
def PROMPT_TECNICO_NOME : Int := 11
def RESUMO_INCLUSAO : Int := 12
def PROMPT_OS_UPDATE : Int := 13
def UPDATE_SELECTION : Int := 14
def PROMPT_UPDATE_FIELD : Int := 15
def PROMPT_OS_DELETE : Int := 16
def CONFIRM_DELETE : Int := 17
def LISTAR_TIPO : Int := 18
def LISTAR_SITUACAO : Int := 19
def LEMBRETE_MENU : Int := 20
def PROMPT_ID_LEMBRETE : Int := 21
def PROMPT_LEMBRETE_DATA : Int := 22
def PROMPT_LEMBRETE_MSG : Int := 23
def PROCESSAR_PDF : Int := 24
def AJUDA_GERAL : Int := 25
def CONVERSATION_END : Int := -1

/-- The business-key field name used as the Firestore document id. -/
def numKey : String := "Número da O.S."

/-- The per-chat `context.user_data` dictionary.  The keys the source stores
there become optional fields; `user_data.clear()` is the default value. -/
structure Session where
  os_data : Rec := []
  editing_field : Option String := none
  is_update : Bool := false
  is_new_os : Bool := false
  current_step : Option Int := none
  lembrete_dt : Option Int := none
deriving DecidableEq

/-- The cleared session (`context.user_data.clear()`). -/
def Session.empty : Session := {}

-- Basic lookup lemmas for the dict operations.

theorem alookup_filter_ne {α : Type} (l : Dict α) {k k2 : String}
    (h : k2 ≠ k) :
    alookup (l.filter (fun p => !(p.1 = k : Bool))) k2 = alookup l k2 := by
  induction l with
  | nil => rfl
  | cons p t ih =>
    by_cases hp : p.1 = k
    · have hkk2 : ¬ (k = k2) := fun hh => h hh.symm
      simp [List.filter_cons, alookup, hp, hkk2, ih]
    · by_cases hk2 : p.1 = k2
      · simp [List.filter_cons, alookup, hp, hk2, h]
      · simp [List.filter_cons, alookup, hp, hk2, ih]

theorem alookup_aset_self {α : Type} (l : Dict α) (k : String) (v : α) :
    alookup (aset l k v) k = some v := by
  simp [aset, alookup]

theorem alookup_aset_ne {α : Type} (l : Dict α) {k k2 : String} (v : α)
    (h : k2 ≠ k) :
    alookup (aset l k v) k2 = alookup l k2 := by
  have hne : k ≠ k2 := fun hh => h hh.symm
  simp [aset, alookup, hne]
  exact alookup_filter_ne l h

theorem alookup_adelete_ne {α : Type} (l : Dict α) {k k2 : String}
    (h : k2 ≠ k) :
    alookup (adelete l k) k2 = alookup l k2 :=
  alookup_filter_ne l h

theorem alookup_adelete_none {α : Type} (l : Dict α) {k : String} (k2 : String)
    (h : alookup l k2 = none) :
    alookup (adelete l k) k2 = none := by
  induction l with
  | nil => rfl
  | cons p t ih =>
    by_cases hk2 : p.1 = k2
    · simp [alookup, hk2] at h
    · simp [alookup, hk2] at h
      by_cases hp : p.1 = k
      · simp [adelete, List.filter, hp] at ih ⊢
        exact ih h
      · simp [adelete, List.filter, hp, alookup, hk2] at ih ⊢
        exact ih h

theorem alookup_append {α : Type} (xs ys : Dict α) (k : String) :
    alookup (xs ++ ys) k
      = match alookup xs k with
        | some v => some v
        | none => alookup ys k := by
  induction xs with
  | nil => rfl
  | cons p t ih =>
    by_cases hp : p.1 = k
    · simp [alookup, hp]
    · simp [alookup, hp, ih]

theorem alookup_filter_isNone_none (old new : Rec) (k : String)
    (h : (alookup new k).isSome) :
    alookup (old.filter (fun p => (alookup new p.1).isNone)) k = none := by
  induction old with
  | nil => rfl
  | cons p t ih =>
    by_cases hp : p.1 = k
    · have : (alookup new p.1).isNone = false := by
        rw [hp]; cases hnk : alookup new k <;> simp [hnk] at h ⊢
      simp [List.filter, this, ih]
    · cases hn : (alookup new p.1).isNone <;>
        simp [List.filter, hn, alookup, hp, ih]

theorem alookup_filter_isNone_keep (old new : Rec) (k : String)
    (h : alookup new k = none) :
    alookup (old.filter (fun p => (alookup new p.1).isNone)) k
      = alookup old k := by
  induction old with
  | nil => rfl
  | cons p t ih =>
    by_cases hp : p.1 = k
    · simp [List.filter_cons, alookup, hp, h]
    · cases hn : (alookup new p.1).isNone <;>
        simp [List.filter_cons, hn, alookup, hp, ih]

theorem alookup_dmerge_of_new {k : String} {v : FVal} (old new : Rec)
    (h : alookup new k = some v) :
    alookup (dmerge old new) k = some v := by
  have h1 : alookup (old.filter (fun p => (alookup new p.1).isNone)) k = none :=
    alookup_filter_isNone_none old new k (by rw [h]; rfl)
  rw [dmerge, alookup_append, h1, h]

theorem alookup_dmerge_of_not_new {k : String} (old new : Rec)
    (h : alookup new k = none) :
    alookup (dmerge old new) k = alookup old k := by
  rw [dmerge, alookup_append, alookup_filter_isNone_keep old new k h]
  cases ho : alookup old k <;> simp [h, ho]

-- String helpers mirroring the Python string operations the handlers use.
-- They are written over the character list so that every definition reduces
-- by `rfl` / `decide` on concrete inputs.

/-- Whitespace for `str.strip()`. -/
def isSpaceChar (c : Char) : Bool :=
  c = ' ' || c = '\t' || c = '\n' || c = '\r'

/-- `text.strip()`. -/
def pyStrip (s : String) : String :=
  String.mk (((s.data.dropWhile isSpaceChar).reverse.dropWhile isSpaceChar).reverse)

/-- `text.isdigit()` for the ASCII digits accepted by the order-number
validation. -/
def pyIsDigit (s : String) : Bool :=
  !(s.data.isEmpty) && s.data.all (fun c => c.isDigit)

/-- `text.upper()` (ASCII, enough for the checked sentinel `'N/A'`). -/
def pyUpper (s : String) : String :=
  String.mk (s.data.map Char.toUpper)

/-- `data.startswith(p)`. -/
def pyStartsWith (s p : String) : Bool :=
  p.data.isPrefixOf s.data

/-- Auxiliary splitter: splits a character list at every slash. -/
def splitSlashAux : List Char → List Char → List String
  | [], acc => [String.mk acc.reverse]
  | c :: rest, acc =>
    if c = '/' then String.mk acc.reverse :: splitSlashAux rest []
    else splitSlashAux rest (c :: acc)

/-- Splits a string at `'/'` (used to model `strptime('%d/%m/%Y')`). -/
def splitSlash (s : String) : List String :=
  splitSlashAux s.data []

/-- Digit-string to number, `none` on empty or non-digit input. -/
def strToNat (s : String) : Option Nat :=
  if pyIsDigit s then
    some (s.data.foldl (fun a c => a * 10 + (c.toNat - 48)) 0)
  else none

/-- Leap years of the Gregorian calendar (Python `datetime` range). -/
def isLeap (y : Nat) : Bool :=
  (y % 4 = 0 && !(y % 100 = 0)) || y % 400 = 0

/-- Days in a month, as validated by `datetime.strptime`. -/
def daysInMonth (y m : Nat) : Nat :=
  if m = 2 then (if isLeap y then 29 else 28)
  else if m = 4 || m = 6 || m = 9 || m = 11 then 30
  else 31

/-- `datetime.strptime(text, '%d/%m/%Y')`: three slash-separated numeric
fields, day/month of one or two digits, year of at most four digits, and the
triple must be a real calendar date; `none` models the `ValueError` branch. -/
def parse_date (s : String) : Option FVal :=
  match splitSlash s with
  | [ds, ms, ys] =>
    match strToNat ds, strToNat ms, strToNat ys with
    | some d, some m, some y =>
      if ds.data.length ≤ 2 && ms.data.length ≤ 2 && ys.data.length ≤ 4
          && 1 ≤ m && m ≤ 12 && 1 ≤ d && d ≤ daysInMonth y m && 1 ≤ y then
        some (FVal.date d m y)
      else none
    | _, _, _ => none
  | _ => none

-- Field-name and sentinel constants used by the handlers.

def situacaoKey : String := "Situação"
def tecnicoKey : String := "Técnico"
def prazoKey : String := "Prazo"
def agendamentoKey : String := "Agendamento"
def lembreteKey : String := "Lembrete"
def createdAtKey : String := "created_at"
def updatedAtKey : String := "updated_at"
def chamadoKey : String := "Chamado"

/-- `fetch_os_by_number`: Firestore lookup by document id; on a hit the
source overwrites the `Número da O.S.` field with the queried number
(`data['Número da O.S.'] = str(os_number)`). -/
def fetch_os_by_number (store : Store) (os_number : String) : Option Rec :=
  match alookup store os_number with
  | some data => some (aset data numKey (FVal.s os_number))
  | none => none

/-- Outcome presented by `prompt_os_id`; `duplicate` carries the existing
record and the callback tokens of the offered buttons
("Sim, Atualizar" / "Não (Cancelar)" / "Voltar ao Menu"). -/
inductive OsIdOutcome where
  | invalidNumber : OsIdOutcome
  | duplicate : Rec → List String → OsIdOutcome
  | newOs : OsIdOutcome
deriving DecidableEq

/-- `prompt_os_id`: receives the order number during the Create flow.
Non-digit input reprompts; an existing number stores the fetched record in
the session and offers the update/cancel choice (returning `MENU` to await
the callback); a fresh number is stored in the draft and the flow advances
(`prompt_prefixo` sets `current_step = PROMPT_CHAMADO` and returns it).
The function performs no Firestore write, which the unchanged store records. -/
def prompt_os_id (store : Store) (sess : Session) (text : String) :
    Store × Session × OsIdOutcome × Int :=
  let os_number := pyStrip text
  if !(pyIsDigit os_number) then
    (store, sess, OsIdOutcome.invalidNumber, PROMPT_OS_ID)
  else
    match fetch_os_by_number store os_number with
    | some os_data =>
      (store, { sess with os_data := os_data },
        OsIdOutcome.duplicate os_data
          [String.append ("update_existing_") os_number, "cancel", "menu"],
        MENU)
    | none =>
      (store,
        { sess with
            os_data := aset sess.os_data numKey (FVal.s os_number),
            is_new_os := true,
            current_step := some PROMPT_CHAMADO },
        OsIdOutcome.newOs, PROMPT_CHAMADO)

/-- The `update_existing_<n>` branch of `callback_handler` followed by
`start_edit_resumo`: reuses the session's record when it matches the number,
refetches otherwise, marks the flow as an update, and enters the field-edit
menu (`UPDATE_SELECTION`); if no record is available the source reports an
error and returns to `MENU`.  No Firestore write occurs. -/
def handle_update_existing (store : Store) (sess : Session)
    (os_number : String) : Store × Session × Int :=
  let os_data :=
    if sess.os_data ≠ [] ∧ alookup sess.os_data numKey = some (FVal.s os_number)
    then sess.os_data
    else (fetch_os_by_number store os_number).getD []
  let sess2 : Session := { sess with os_data := os_data, is_update := true }
  if os_data = [] then (store, sess2, MENU)
  else (store, sess2, UPDATE_SELECTION)

/-- `handle_update_field_input`: receives the replacement value for the field
being edited.  Date fields (`Prazo` / `Agendamento`) must parse under
`'%d/%m/%Y'`, except for the `'N/A'` sentinel on `Agendamento`; an invalid
date reprompts in `PROMPT_UPDATE_FIELD` leaving the session untouched.  Any
accepted value is written into the in-memory `os_data` only — the source has
no Firestore call here, so the store passes through unchanged. -/
def handle_update_field_input (store : Store) (sess : Session)
    (text0 : String) : Store × Session × Int :=
  let text := pyStrip text0
  match sess.editing_field with
  | none => (store, sess, RESUMO_INCLUSAO)
  | some field_name =>
    if field_name = prazoKey ∨ field_name = agendamentoKey then
      if field_name = agendamentoKey ∧ pyUpper text = "N/A" then
        (store,
          { sess with
              os_data := aset sess.os_data agendamentoKey (FVal.s "Não Informado"),
              editing_field := none },
          RESUMO_INCLUSAO)
      else
        match parse_date text with
        | some d =>
          (store,
            { sess with
                os_data := aset sess.os_data field_name d,
                editing_field := none },
            RESUMO_INCLUSAO)
        | none => (store, sess, PROMPT_UPDATE_FIELD)
    else
      (store,
        { sess with
            os_data := aset sess.os_data field_name (FVal.s text),
            editing_field := none },
        RESUMO_INCLUSAO)

/-- `prompt_situacao`: receives the `Prazo` text during the Create flow.  An
unparseable date replies with an error and stays in `PROMPT_PRAZO` without
touching the draft; a valid date is stored and the situation keyboard is
shown (or control returns to the resumé when a field edit was pending). -/
def prompt_situacao (sess : Session) (text0 : String) : Session × Int :=
  let text := pyStrip text0
  match parse_date text with
  | none => (sess, PROMPT_PRAZO)
  | some d =>
    let sess2 : Session := { sess with os_data := aset sess.os_data prazoKey d }
    match sess2.editing_field with
    | some _ => ({ sess2 with editing_field := none }, RESUMO_INCLUSAO)
    | none =>
      ({ sess2 with current_step := some PROMPT_SITUACAO }, PROMPT_SITUACAO)

/-- `save_os_to_firestore` (the `confirm_save` callback): drops the cosmetic
`Lembrete` field when it is the `'Nenhum'` placeholder, stamps `created_at`
and `updated_at` with `datetime.now()`, and writes the whole document with
`set` (full-document write, not a partial update).  Missing data ends the
conversation; the session is cleared either way. -/
def save_os_to_firestore (store : Store) (sess : Session) (now : Int) :
    Store × Session × Int :=
  let os_data := sess.os_data
  match alookup os_data numKey with
  | some (FVal.s n) =>
    if os_data = [] ∨ n = "" then (store, Session.empty, CONVERSATION_END)
    else
      let os_data2 :=
        if alookup os_data lembreteKey = some (FVal.s "Nenhum") then
          adelete os_data lembreteKey
        else os_data
      let os_data3 :=
        aset (aset os_data2 createdAtKey (FVal.time now)) updatedAtKey
          (FVal.time now)
      (aset store n os_data3, Session.empty, MENU)
  | _ => (store, Session.empty, CONVERSATION_END)

/-- A manual reminder document as built by `save_lembrete` (collection
`lembretes_manuais`), also used as the payload of the `run_once` job. -/
structure Lembrete where
  os_number : String
  chat_id : Int
  message : String
  run_time : Int
  created_at : Int
  status : String
deriving DecidableEq

/-- The observable system state outside one session: the order store, the
reminder collection, the Telegram job queue, and the messages delivered so
far through the bot (the Notifier). -/
structure World where
  ordens : Store
  lembretes_manuais : List Lembrete
  job_queue : List Lembrete
  sent_messages : List (Int × String)
deriving DecidableEq

/-- `confirm_delete` (the `confirm_delete_<n>` callback): deletes the order
document named by the session's record and clears the session.  The source
touches nothing else — in particular neither `lembretes_manuais` nor the job
queue.  (When the session holds no order number the source would raise
`KeyError`; that point is unreachable because `prompt_os_delete` always
stores a fetched record first.) -/
def confirm_delete (w : World) (sess : Session) : World × Session × Int :=
  match alookup sess.os_data numKey with
  | some (FVal.s os_number) =>
    ({ w with ordens := adelete w.ordens os_number }, Session.empty, MENU)
  | _ => (w, Session.empty, MENU)

/-- `prompt_lembrete_msg`: receives the reminder timestamp.  `parsed` is the
result of `datetime.strptime(text, '%d/%m/%Y %H:%M')` in minutes (absolute
time), `none` standing for the `ValueError` branch.  A timestamp earlier
than `now` — or an unparseable one — reprompts in `PROMPT_LEMBRETE_DATA`;
otherwise the timestamp is stored and the message prompt follows.  No
reminder document or job exists yet at this point, so the world passes
through unchanged. -/
def prompt_lembrete_msg (w : World) (sess : Session) (now : Int)
    (parsed : Option Int) : World × Session × Int :=
  match parsed with
  | none => (w, sess, PROMPT_LEMBRETE_DATA)
  | some dt =>
    if dt < now then (w, sess, PROMPT_LEMBRETE_DATA)
    else (w, { sess with lembrete_dt := some dt }, PROMPT_LEMBRETE_MSG)

/-- Modelled from the spec for comparison with the code: the spec's §3
acceptance rule for `firesAt` — "must be strictly in the future at creation
time (with a small grace tolerance, e.g. ≥ now − 5 minutes)".  Times in
minutes, matching `prompt_lembrete_msg`. -/
def spec_firesAt_acceptable (now dt : Int) : Bool :=
  now - 5 ≤ dt

/-- `save_lembrete`: stores the reminder document in `lembretes_manuais` and
schedules a matching `run_once` job, then clears the session.  (As in
`confirm_delete`, a session without the needed keys would raise and is
unreachable through the flow.) -/
def save_lembrete (w : World) (sess : Session) (chat_id : Int) (now : Int)
    (mensagem0 : String) : World × Session × Int :=
  let mensagem := pyStrip mensagem0
  match alookup sess.os_data numKey, sess.lembrete_dt with
  | some (FVal.s n), some dt =>
    let doc : Lembrete :=
      { os_number := n, chat_id := chat_id,
        message :=
          String.append (String.append ("🔔 <b>Lembrete OS ") n)
            (String.append ("</b>: ") mensagem),
        run_time := dt, created_at := now, status := "Pendente" }
    ({ w with
        lembretes_manuais := w.lembretes_manuais ++ [doc],
        job_queue := w.job_queue ++ [doc] },
      Session.empty, MENU)
  | _, _ => (w, sess, MENU)

/-- A tick of the Telegram job queue at time `now`: every `run_once` job
whose time has arrived fires `send_manual_alert_job`, which delivers the
stored message to the stored chat; fired jobs leave the queue. -/
def scheduler_tick (w : World) (now : Int) : World :=
  { w with
      job_queue := w.job_queue.filter (fun j => !(decide (j.run_time ≤ now))),
      sent_messages :=
        w.sent_messages
          ++ (w.job_queue.filter (fun j => decide (j.run_time ≤ now))).map
              (fun j => (j.chat_id, j.message)) }

-- Deadline Monitor (`check_automatic_alerts_job`).

/-- The closed status choice set offered by the situation keyboard; every
status that can reach the store is one of these four values. -/
inductive Situacao where
  | pendente : Situacao
  | aguardandoAgendamento : Situacao
  | agendado : Situacao
  | concluido : Situacao
deriving DecidableEq

/-- Alert classes emitted by the sweep ("🔴 VENCIDA", "⚠️ VENCE AMANHÃ",
"🟡 VENCE EM 2 DIAS"). -/
inductive AlertClass where
  | overdue : AlertClass
  | dueTomorrow : AlertClass
  | dueIn2Days : AlertClass
deriving DecidableEq

/-- The fields of a stored order that the sweep reads: its number, its
status, and its due date.  Dates are modelled at calendar-day granularity
(the sweep immediately truncates both `datetime.now()` and the stored
`Prazo` to midnight with `replace(hour=0, ...)`), as integer day indices;
`prazo = none` stands for a document whose `Prazo` is missing or not a
datetime, which the loop skips. -/
structure SweepOrder where
  os_number : String
  situacao : Situacao
  prazo : Option Int
deriving DecidableEq

/-- The alert classification of `check_automatic_alerts_job`:
`prazo_dt < today` → overdue, `== tomorrow` → due tomorrow,
`== day_after_tomorrow` → due in 2 days, otherwise no alert. -/
def classify_alert (today prazo : Int) : Option AlertClass :=
  if prazo < today then some AlertClass.overdue
  else if prazo = today + 1 then some AlertClass.dueTomorrow
  else if prazo = today + 2 then some AlertClass.dueIn2Days
  else none

/-- One iteration of the sweep loop: orders whose status is `Concluído` are
skipped (the only terminal status in the domain), orders without a valid
date are skipped, and the rest produce the alert line for their class. -/
def order_alert (today : Int) (o : SweepOrder) : Option (String × AlertClass) :=
  if o.situacao = Situacao.concluido then none
  else
    match o.prazo with
    | some p =>
      match classify_alert today p with
      | some c => some (o.os_number, c)
      | none => none
    | none => none

/-- One full sweep: the alert lines pushed through the Notifier, in store
order.  The job keeps no record of what it has already sent — there is no
dedup key anywhere in the source. -/
def sweep_alerts (today : Int) (orders : List SweepOrder) :
    List (String × AlertClass) :=
  orders.filterMap (order_alert today)

/-- Running the sweep `n` times on the same calendar day over the same
store: the notifications accumulate, each tagged with the day. -/
def run_sweeps (today : Int) (orders : List SweepOrder) :
    Nat → List (String × AlertClass × Int)
  | 0 => []
  | n + 1 =>
    run_sweeps today orders n
      ++ (sweep_alerts today orders).map (fun p => (p.1, p.2, today))

-- PDF flow (`extrair_dados_pdf_bytes` and `processar_pdf`).

/-- The eight extraction patterns of `extrair_dados_pdf_bytes`, in source
order. -/
def pattern_fields : List String :=
  [numKey, chamadoKey, "Prefixo/Dependência", "Distância", "Descrição",
    "Criticidade", "Tipo", prazoKey]

/-- Python truthiness of a field lookup (`not dados['Situação']` etc.):
absent keys and `None` are falsy; of the values that occur, only the empty
string is falsy. -/
def truthyF : Option FVal → Bool
  | none => false
  | some (FVal.s v) => !(v = "" : Bool)
  | some FVal.null => false
  | some (FVal.date _ _ _) => true
  | some (FVal.time _) => true

/-- `extrair_dados_pdf_bytes`, with the regex-and-cleanup pipeline over the
PDF text abstracted as `extract : field ↦ cleaned value` (the document
field extractor boundary; `none` = pattern not found or value cleaned away).
Every pattern field is written into the result — as `None` when not found —
and the `Situação` / `Técnico` defaults are then filled in exactly as in the
source (their keys are never produced by the patterns, so the defaults
always apply). -/
def extrair_dados_pdf (extract : String → Option String) : Rec :=
  let dados : Rec :=
    pattern_fields.map (fun c =>
      (c, match extract c with
          | some v => FVal.s v
          | none => FVal.null))
  let dados2 :=
    if truthyF (alookup dados situacaoKey) then dados
    else aset dados situacaoKey (FVal.s "Pendente")
  if truthyF (alookup dados2 tecnicoKey) then dados2
  else aset dados2 tecnicoKey (FVal.s "Não Definido")

/-- `processar_pdf` after a successful download: extract, bail out (staying
in `PROCESSAR_PDF`) when no order number was found, drop any `Lembrete` key,
then either merge into the existing document (`os_data.update(dados_os)`
plus a fresh `updated_at`) or create a new document with both timestamps.
The write is a direct `set`; no validation or duplicate choice intervenes. -/
def processar_pdf (store : Store) (now : Int)
    (extract : String → Option String) : Store × Int :=
  let dados := extrair_dados_pdf extract
  match alookup dados numKey with
  | some (FVal.s n) =>
    if n = "" then (store, PROCESSAR_PDF)
    else
      let dados2 := adelete dados lembreteKey
      match alookup store n with
      | some os_data =>
        let merged := aset (dmerge os_data dados2) updatedAtKey (FVal.time now)
        (aset store n merged, MENU)
      | none =>
        let fresh :=
          aset
            (aset (aset dados2 createdAtKey (FVal.time now)) updatedAtKey
              (FVal.time now))
            numKey (FVal.s n)
        (aset store n fresh, MENU)
  | _ => (store, PROCESSAR_PDF)

-- Callback dispatch (`callback_handler`).

/-- The handler selected by the `if`-chain of `callback_handler` for a given
callback payload, in source order. -/
inductive Dispatch where
  | start : Dispatch
  | startIncluirOs : Dispatch
  | promptTipo : Dispatch
  | promptPrazo : Dispatch
  | promptTecnico : Dispatch
  | handleTecnicoSelection : Dispatch
  | startEditResumo : Dispatch
  | handleEditSelection : Dispatch
  | saveOs : Dispatch
  | showResumo : Dispatch
  | startAtualizarOs : Dispatch
  | updateExisting : Dispatch
  | startDeletarOs : Dispatch
  | confirmDeleteCb : Dispatch
  | startListarOs : Dispatch
  | promptListarSituacao : Dispatch
  | executeListagem : Dispatch
  | startEnviarPdf : Dispatch
  | startLembrete : Dispatch
  | startLembreteManual : Dispatch
  | ajudaGeral : Dispatch
  | backNav : Dispatch
  | fallback : Dispatch
deriving DecidableEq

/-- The dispatch chain of `callback_handler`, branch for branch. -/
def callback_dispatch (data : String) : Dispatch :=
  if data = "menu" then Dispatch.start
  else if data = "incluir_os" then Dispatch.startIncluirOs
  else if pyStartsWith data ("criticidade_") then Dispatch.promptTipo
  else if pyStartsWith data ("tipo_") then Dispatch.promptPrazo
  else if pyStartsWith data ("situacao_") then Dispatch.promptTecnico
  else if pyStartsWith data ("tecnico_") then Dispatch.handleTecnicoSelection
  else if data = "edit_resumo" then Dispatch.startEditResumo
  else if pyStartsWith data ("edit_field_") || pyStartsWith data ("edit_select_")
    then Dispatch.handleEditSelection
  else if data = "confirm_save" then Dispatch.saveOs
  else if data = "show_resumo" then Dispatch.showResumo
  else if data = "atualizar_os" then Dispatch.startAtualizarOs
  else if pyStartsWith data ("update_existing_") then Dispatch.updateExisting
  else if data = "deletar_os" then Dispatch.startDeletarOs
  else if pyStartsWith data ("confirm_delete_") then Dispatch.confirmDeleteCb
  else if data = "listar_os" then Dispatch.startListarOs
  else if pyStartsWith data ("list_tipo_") then Dispatch.promptListarSituacao
  else if pyStartsWith data ("list_situacao_") then Dispatch.executeListagem
  else if data = "enviar_pdf" then Dispatch.startEnviarPdf
  else if data = "lembrete_menu" then Dispatch.startLembrete
  else if data = "lembrete_manual_start" then Dispatch.startLembreteManual
  else if data = "ajuda_geral" then Dispatch.ajudaGeral
  else if pyStartsWith data ("back_") then Dispatch.backNav
  else Dispatch.fallback

/-- The body of the `back_` branch: the message is replaced by the main
menu, `context.user_data.clear()` runs, and `MENU` is returned — regardless
of which step the `back_<state>` payload names. -/
def callback_back_branch (_sess : Session) : Session × Int :=
  (Session.empty, MENU)

-- Claim C5: sweep exclusion and classification.

/-- Whenever `order_alert` answers with an alert, the alert names the
order's own number. -/
theorem order_alert_fst (today : Int) (o : SweepOrder)
    (p : String × AlertClass) (h : order_alert today o = some p) :
    p.1 = o.os_number := by
  unfold order_alert at h
  by_cases h1 : o.situacao = Situacao.concluido
  · simp [h1] at h
  · rw [if_neg h1] at h
    cases hp : o.prazo with
    | none => rw [hp] at h; simp at h
    | some d =>
      rw [hp] at h
      simp only [] at h
      cases hc : classify_alert today d with
      | none => rw [hc] at h; simp at h
      | some c =>
        rw [hc] at h
        simp only [] at h
        rw [← Option.some_inj.mp h]

/-- C5: a Deadline Monitor sweep considers only orders whose status is not
terminal — `Concluído` ("done") is the sole terminal status in the closed
status domain, and there is no cancelled status to exclude — and classifies
every considered order with a due date by `daysUntilDue = prazo − today` at
calendar-day granularity: negative → overdue, exactly 1 → dueTomorrow,
exactly 2 → dueIn2Days, anything else → no alert. -/
theorem C5_sweep_classification (today : Int) (o : SweepOrder) (p : Int)
    (hprazo : o.prazo = some p) :
    (o.situacao = Situacao.concluido → order_alert today o = none)
    ∧ (o.situacao ≠ Situacao.concluido →
        ((order_alert today o = some (o.os_number, AlertClass.overdue))
            ↔ p - today < 0)
        ∧ ((order_alert today o = some (o.os_number, AlertClass.dueTomorrow))
            ↔ p - today = 1)
        ∧ ((order_alert today o = some (o.os_number, AlertClass.dueIn2Days))
            ↔ p - today = 2)
        ∧ ((order_alert today o = none)
            ↔ ¬(p - today < 0 ∨ p - today = 1 ∨ p - today = 2))) := by
  constructor
  · intro h1
    simp [order_alert, h1]
  · intro h1
    unfold order_alert classify_alert
    rw [hprazo]
    simp only [h1, if_false]
    by_cases hlt : p < today
    · simp [hlt] <;> omega
    · by_cases he1 : p = today + 1
      · simp [hlt, he1] <;> omega
      · by_cases he2 : p = today + 2
        · simp [hlt, he1, he2] <;> omega
        · simp [hlt, he1, he2] <;> omega

/-- Witness for C5 at a concrete order: due in two calendar days, status
`Pendente`, classified `dueIn2Days`. -/
theorem C5_sweep_classification_witness :
    order_alert 10 (SweepOrder.mk ("7") Situacao.pendente (some 12))
      = some ("7", AlertClass.dueIn2Days) :=
  ((C5_sweep_classification 10 (SweepOrder.mk ("7") Situacao.pendente (some 12))
      12 rfl).2 (by decide)).2.2.1.mpr (by decide)

-- Claim C1: at-most-one notification per (order, alert class, day).

/-- Tagging each alert of a sweep with the day preserves per-tuple counts. -/
theorem count_map_tag (s : List (String × AlertClass)) (today : Int)
    (i : String) (c : AlertClass) :
    ((s.map (fun p => (p.1, p.2, today))).count (i, c, today))
      = s.count (i, c) := by
  induction s with
  | nil => rfl
  | cons a t ih =>
    by_cases h : a = (i, c)
    · subst h
      simp [List.count_cons, ih]
    · have h2 : ¬ ((a.1, a.2, today) = (i, c, today)) := by
        intro hh
        apply h
        cases a
        simp at hh
        simp [hh.1, hh.2]
      simp [List.count_cons, ih, h, h2]

/-- In one sweep, a tuple `(i, c)` shows up at most as often as `i` shows up
among the order numbers. -/
theorem sweep_count_le (today : Int) (orders : List SweepOrder) (i : String)
    (c : AlertClass) :
    (sweep_alerts today orders).count (i, c)
      ≤ (orders.map (fun o => o.os_number)).count i := by
  induction orders with
  | nil => simp [sweep_alerts]
  | cons o t ih =>
    cases ho : order_alert today o with
    | none =>
      simp only [sweep_alerts, List.filterMap_cons, ho, List.map_cons,
        List.count_cons]
      exact Nat.le_trans ih (Nat.le_add_right _ _)
    | some p =>
      have hp1 : p.1 = o.os_number := order_alert_fst today o p ho
      simp only [sweep_alerts, List.filterMap_cons, ho, List.map_cons,
        List.count_cons]
      by_cases hpc : p = (i, c)
      · have : o.os_number = i := by rw [← hp1, hpc]
        simp [hpc, this]
        exact ih
      · simp [hpc]
        by_cases hoi : o.os_number = i
        · simp [hoi]
          exact Nat.le_trans ih (Nat.le_add_right _ _)
        · simp [hoi]
          exact ih

/-- C1 counterexample: one open order one day overdue, two sweeps on the same
day.  The sweep keeps no dedup record, so the tuple
`("1", overdue, day 5)` is notified twice — the claimed at-most-one bound
fails. -/
theorem C1_counterexample :
    ¬ ((run_sweeps 5 [SweepOrder.mk ("1") Situacao.pendente (some 0)] 2).count
        (("1" : String), AlertClass.overdue, (5 : Int)) ≤ 1) := by
  decide

/-- C1 amended: the source checks and records no dedup key, so each sweep
re-emits every alert: over `n` sweeps on one day a tuple is notified exactly
`n` times its per-sweep count, and the per-sweep count is at most one when
the store's order numbers are distinct.  (Only under the production schedule
of a single daily sweep does at-most-one-per-day follow.) -/
theorem C1_per_sweep_no_dedup (today : Int) (orders : List SweepOrder)
    (n : Nat) (i : String) (c : AlertClass)
    (hnodup : (orders.map (fun o => o.os_number)).Nodup) :
    ((run_sweeps today orders n).count (i, c, today)
        = n * (sweep_alerts today orders).count (i, c))
    ∧ (sweep_alerts today orders).count (i, c) ≤ 1 := by
  constructor
  · induction n with
    | zero => simp [run_sweeps]
    | succ m ih =>
      simp only [run_sweeps, List.count_append, ih, count_map_tag]
      ring
  · exact Nat.le_trans (sweep_count_le today orders i c)
      (List.nodup_iff_count_le_one.mp hnodup i)

/-- Witness for C1's amended statement: three sweeps over a one-order store
notify the overdue tuple exactly three times, once per sweep. -/
theorem C1_per_sweep_no_dedup_witness :
    (([SweepOrder.mk ("1") Situacao.pendente (some 0)].map
        (fun o => o.os_number)).Nodup)
    ∧ ((run_sweeps 5 [SweepOrder.mk ("1") Situacao.pendente (some 0)] 3).count
          (("1" : String), AlertClass.overdue, (5 : Int))
        = 3 * (sweep_alerts 5
            [SweepOrder.mk ("1") Situacao.pendente (some 0)]).count
            (("1" : String), AlertClass.overdue))
    ∧ (sweep_alerts 5 [SweepOrder.mk ("1") Situacao.pendente (some 0)]).count
        (("1" : String), AlertClass.overdue) ≤ 1 :=
  ⟨by decide,
    (C1_per_sweep_no_dedup 5 [SweepOrder.mk ("1") Situacao.pendente (some 0)]
      3 ("1") AlertClass.overdue (by decide)).1,
    (C1_per_sweep_no_dedup 5 [SweepOrder.mk ("1") Situacao.pendente (some 0)]
      3 ("1") AlertClass.overdue (by decide)).2⟩

-- Claim C2: cascade of Delete onto manual reminders.

/-- The record of order "1" used in the C2 counterexample. -/
def c2_rec : Rec := [(numKey, FVal.s ("1"))]

/-- Initial world for C2: order "1" exists, no reminders yet. -/
def c2_world0 : World :=
  { ordens := [("1", c2_rec)], lembretes_manuais := [], job_queue := [],
    sent_messages := [] }

/-- Session at the end of the reminder flow for order "1": record loaded,
reminder time stored (minute 100). -/
def c2_sess : Session := { os_data := c2_rec, lembrete_dt := some 100 }

/-- World after the reminder is saved (chat 7, time 0). -/
def c2_world1 : World := (save_lembrete c2_world0 c2_sess 7 0 ("ver a bomba")).1

/-- World after the Delete flow for order "1" is confirmed. -/
def c2_world2 : World := (confirm_delete c2_world1 { os_data := c2_rec }).1

/-- C2 counterexample: order "1" is deleted from the Repository, yet the
reminder referencing "1" is neither cancelled in the collection nor removed
from the job queue, and the next scheduler tick (minute 150) delivers it —
contradicting the claimed cascade. -/
theorem C2_counterexample :
    alookup c2_world2.ordens ("1") = none
    ∧ c2_world2.job_queue.map (fun j => j.os_number) = ["1"]
    ∧ c2_world2.lembretes_manuais.map (fun j => j.os_number) = ["1"]
    ∧ (scheduler_tick c2_world2 150).sent_messages.length = 1 := by
  decide

/-- C2 amended: confirming a Delete removes only the order document.  The
reminder collection, the scheduled jobs and the delivered messages are left
exactly as they were — there is no cascade, so reminders referencing the
deleted order still fire on later scheduler ticks. -/
theorem C2_delete_without_cascade (w : World) (sess : Session) (n : String)
    (h : alookup sess.os_data numKey = some (FVal.s n)) :
    confirm_delete w sess
        = ({ w with ordens := adelete w.ordens n }, Session.empty, MENU)
    ∧ (confirm_delete w sess).1.lembretes_manuais = w.lembretes_manuais
    ∧ (confirm_delete w sess).1.job_queue = w.job_queue := by
  refine ⟨?_, ?_, ?_⟩ <;> simp [confirm_delete, h]

/-- Witness for C2's amended statement at the concrete C2 world. -/
theorem C2_delete_without_cascade_witness :
    alookup c2_sess.os_data numKey = some (FVal.s ("1"))
    ∧ confirm_delete c2_world1 c2_sess
        = ({ c2_world1 with ordens := adelete c2_world1.ordens ("1") },
            Session.empty, MENU) :=
  ⟨by decide, (C2_delete_without_cascade c2_world1 c2_sess ("1") (by decide)).1⟩

-- Claim C6: reminder timestamp validation.

/-- C6 counterexample: at `now = 100` minutes, a timestamp of `97` (three
minutes in the past) satisfies the claim's acceptance rule
`firesAt ≥ now − 5`, yet the code rejects it and reprompts; and a timestamp
equal to `now` — not strictly in the future — is accepted.  The claimed
grace-tolerance boundary is therefore not the code's boundary. -/
theorem C6_counterexample :
    spec_firesAt_acceptable 100 97 = true
    ∧ prompt_lembrete_msg (World.mk [] [] [] []) Session.empty 100 (some 97)
        = (World.mk [] [] [] [], Session.empty, PROMPT_LEMBRETE_DATA)
    ∧ prompt_lembrete_msg (World.mk [] [] [] []) Session.empty 100 (some 100)
        = (World.mk [] [] [] [],
            { Session.empty with lembrete_dt := some 100 },
            PROMPT_LEMBRETE_MSG) := by
  decide

/-- C6 amended: the timestamp is rejected exactly when it is earlier than
`now` — no grace tolerance, and `firesAt = now` is accepted.  Rejection (and
an unparseable timestamp) reprompts in the timestamp state and leaves the
world untouched, so no reminder is created; in particular a timestamp one
minute in the past is rejected. -/
theorem C6_rejects_only_past (w : World) (sess : Session) (now dt : Int) :
    (dt < now →
      prompt_lembrete_msg w sess now (some dt) = (w, sess, PROMPT_LEMBRETE_DATA))
    ∧ (now ≤ dt →
      prompt_lembrete_msg w sess now (some dt)
        = (w, { sess with lembrete_dt := some dt }, PROMPT_LEMBRETE_MSG))
    ∧ prompt_lembrete_msg w sess now none = (w, sess, PROMPT_LEMBRETE_DATA) := by
  refine ⟨fun h => ?_, fun h => ?_, rfl⟩
  · simp [prompt_lembrete_msg, h]
  · have h2 : ¬ (dt < now) := by omega
    simp [prompt_lembrete_msg, h2]

/-- Witness for C6's amended statement: one minute in the past
(`now = 100`, `dt = 99`) is rejected with a reprompt and no state change. -/
theorem C6_rejects_only_past_witness :
    prompt_lembrete_msg (World.mk [] [] [] []) Session.empty 100 (some 99)
      = (World.mk [] [] [] [], Session.empty, PROMPT_LEMBRETE_DATA) :=
  (C6_rejects_only_past (World.mk [] [] [] []) Session.empty 100 99).1
    (by decide)

-- Claim C3: immediate persistence of accepted field edits.

/-- Store of the C3 counterexample: order "1" with `Chamado = "A"`. -/
def c3_store : Store := [("1", [(numKey, FVal.s ("1")), (chamadoKey, FVal.s ("A"))])]

/-- Session of the C3 counterexample: the Update flow loaded order "1" and
the operator selected the `Chamado` field for editing. -/
def c3_sess : Session :=
  { os_data := [(numKey, FVal.s ("1")), (chamadoKey, FVal.s ("A"))],
    editing_field := some chamadoKey, is_update := true }

/-- C3 counterexample: the operator submits "B" for `Chamado` and the edit is
accepted — but immediately afterwards the persisted record still holds "A"
while the session's working copy holds "B".  No partial update is issued, so
the store and the in-memory copy diverge between operator inputs,
contradicting the claim. -/
theorem C3_counterexample :
    ¬ (alookup ((handle_update_field_input c3_store c3_sess ("B")).2.1).os_data
          chamadoKey
        = alookup
            ((alookup ((handle_update_field_input c3_store c3_sess ("B")).1)
                ("1")).getD [])
            chamadoKey) := by
  decide

/-- C3 amended: an accepted non-date field edit updates only the session's
in-memory record and returns to the resumé; the store passes through
untouched.  Persistence happens only when the operator later presses the
save button: `save_os_to_firestore` then writes the whole document (with
fresh timestamps, and the `'Nenhum'` reminder placeholder dropped) in a
single `set` — there is no per-field partial update anywhere. -/
theorem C3_edits_batched_until_save (store : Store) (sess : Session)
    (text f : String) (now : Int) (n : String)
    (hf : sess.editing_field = some f) (h1 : f ≠ prazoKey)
    (h2 : f ≠ agendamentoKey)
    (hn : alookup sess.os_data numKey = some (FVal.s n))
    (hne : sess.os_data ≠ []) (hns : n ≠ "") :
    handle_update_field_input store sess text
        = (store,
            { sess with
                os_data := aset sess.os_data f (FVal.s (pyStrip text)),
                editing_field := none },
            RESUMO_INCLUSAO)
    ∧ save_os_to_firestore store sess now
        = (aset store n
            (aset
              (aset
                (if alookup sess.os_data lembreteKey = some (FVal.s "Nenhum")
                  then adelete sess.os_data lembreteKey
                  else sess.os_data)
                createdAtKey (FVal.time now))
              updatedAtKey (FVal.time now)),
            Session.empty, MENU) := by
  constructor
  · simp [handle_update_field_input, hf, h1, h2]
  · have hcond : ¬ (sess.os_data = [] ∨ n = "") := by
      intro hc
      cases hc with
      | inl hc => exact hne hc
      | inr hc => exact hns hc
    simp only [save_os_to_firestore, hn, hcond, if_false]

/-- Witness for C3's amended statement at the concrete C3 inputs. -/
theorem C3_edits_batched_until_save_witness :
    handle_update_field_input c3_store c3_sess ("B")
      = (c3_store,
          { c3_sess with
              os_data := aset c3_sess.os_data chamadoKey
                (FVal.s (pyStrip ("B"))),
              editing_field := none },
          RESUMO_INCLUSAO) :=
  (C3_edits_batched_until_save c3_store c3_sess ("B") chamadoKey 0 ("1")
    rfl (by decide) (by decide) (by decide) (by decide) (by decide)).1

-- Claim C7: invalid field input leaves state unchanged and retries.

/-- C7: an unparseable date submitted while a specific field awaits a
replacement value changes nothing.  In the edit loop
(`handle_update_field_input` with `editing_field = k` for a date field and
no `'N/A'` sentinel) the session — draft value of `k` included — and the
store are returned exactly as they were and control stays in
`PROMPT_UPDATE_FIELD`; in the Create flow (`prompt_situacao` receiving the
`Prazo` text) the session is unchanged and control stays in
`PROMPT_PRAZO`. -/
theorem C7_invalid_input_retry (store : Store) (sess : Session)
    (text f : String) (hparse : parse_date (pyStrip text) = none) :
    prompt_situacao sess text = (sess, PROMPT_PRAZO)
    ∧ (sess.editing_field = some f → (f = prazoKey ∨ f = agendamentoKey) →
        ¬ (f = agendamentoKey ∧ pyUpper (pyStrip text) = "N/A") →
        handle_update_field_input store sess text
          = (store, sess, PROMPT_UPDATE_FIELD)) := by
  constructor
  · simp [prompt_situacao, hparse]
  · intro hf hor hna
    simp [handle_update_field_input, hf, hor, hna, hparse]

/-- Witness for C7 at the well-formed but invalid calendar date
`31/02/2025`: the session that was editing `Prazo` keeps its old draft value
and stays in the same state, in both handlers. -/
theorem C7_invalid_input_retry_witness :
    parse_date (pyStrip ("31/02/2025")) = none
    ∧ handle_update_field_input c3_store
        { c3_sess with editing_field := some prazoKey } ("31/02/2025")
        = (c3_store, { c3_sess with editing_field := some prazoKey },
            PROMPT_UPDATE_FIELD)
    ∧ prompt_situacao { c3_sess with editing_field := some prazoKey }
        ("31/02/2025")
        = ({ c3_sess with editing_field := some prazoKey }, PROMPT_PRAZO) :=
  ⟨by decide,
    (C7_invalid_input_retry c3_store
        { c3_sess with editing_field := some prazoKey } ("31/02/2025")
        prazoKey (by decide)).2 rfl (Or.inl rfl) (by decide),
    (C7_invalid_input_retry c3_store
        { c3_sess with editing_field := some prazoKey } ("31/02/2025")
        prazoKey (by decide)).1⟩

-- Claim C4: duplicate routing in the Create flow.

/-- C4: submitting the identifier of an existing order in the Create flow
never writes to the store.  The existing record is loaded into the session
and presented with the choice set
`update_existing_<n> / cancel / menu`; taking the edit choice enters the
field-edit menu over that same record — its `Número da O.S.` (the store
identity) intact — again without any write. -/
theorem C4_duplicate_routing (store : Store) (sess : Session) (text n : String)
    (d : Rec) (hn : pyStrip text = n) (hdig : pyIsDigit n = true)
    (hex : alookup store n = some d) :
    prompt_os_id store sess text
        = (store, { sess with os_data := aset d numKey (FVal.s n) },
            OsIdOutcome.duplicate (aset d numKey (FVal.s n))
              [String.append ("update_existing_") n, "cancel", "menu"],
            MENU)
    ∧ handle_update_existing store
        { sess with os_data := aset d numKey (FVal.s n) } n
        = (store,
            { sess with
                os_data := aset d numKey (FVal.s n)
                is_update := true },
            UPDATE_SELECTION)
    ∧ alookup (aset d numKey (FVal.s n)) numKey = some (FVal.s n) := by
  refine ⟨?_, ?_, alookup_aset_self d numKey (FVal.s n)⟩
  · simp [prompt_os_id, hn, hdig, fetch_os_by_number, hex]
  · have hone : alookup (aset d numKey (FVal.s n)) numKey = some (FVal.s n) :=
      alookup_aset_self d numKey (FVal.s n)
    have hnonempty : aset d numKey (FVal.s n) ≠ [] := by simp [aset]
    simp [handle_update_existing, hone, hnonempty]

/-- Witness for C4: store holding order "12", Create flow fed "12". -/
theorem C4_duplicate_routing_witness :
    prompt_os_id [("12", [(numKey, FVal.s ("12"))])] Session.empty ("12")
      = ([("12", [(numKey, FVal.s ("12"))])],
          { Session.empty with
              os_data := aset [(numKey, FVal.s ("12"))] numKey (FVal.s ("12")) },
          OsIdOutcome.duplicate
            (aset [(numKey, FVal.s ("12"))] numKey (FVal.s ("12")))
            [String.append ("update_existing_") ("12"), "cancel", "menu"],
          MENU) :=
  (C4_duplicate_routing [("12", [(numKey, FVal.s ("12"))])] Session.empty
    ("12") ("12") [(numKey, FVal.s ("12"))] (by decide) (by decide)
    (by decide)).1

-- Facts about the extraction record, used by claims C8 and C9.

/-- Normal form of `extrair_dados_pdf`: the `Técnico` and `Situação`
defaults always apply (the patterns never produce those keys), followed by
the eight pattern fields. -/
theorem extrair_eq (extract : String → Option String) :
    extrair_dados_pdf extract
      = (tecnicoKey, FVal.s ("Não Definido"))
        :: (situacaoKey, FVal.s ("Pendente"))
        :: pattern_fields.map (fun c =>
            (c, match extract c with
                | some v => FVal.s v
                | none => FVal.null)) := rfl

/-- The extraction record holds the default `Situação`. -/
theorem extrair_situacao (extract : String → Option String) :
    alookup (extrair_dados_pdf extract) situacaoKey
      = some (FVal.s ("Pendente")) := rfl

/-- The extraction record holds the default `Técnico`. -/
theorem extrair_tecnico (extract : String → Option String) :
    alookup (extrair_dados_pdf extract) tecnicoKey
      = some (FVal.s ("Não Definido")) := rfl

/-- The extraction record binds each pattern field to the extractor's
answer — `None` when the pattern was not found. -/
theorem extrair_pattern (extract : String → Option String) (c : String)
    (hc : c ∈ pattern_fields) :
    alookup (extrair_dados_pdf extract) c
      = some (match extract c with
              | some v => FVal.s v
              | none => FVal.null) := by
  simp only [pattern_fields, List.mem_cons, List.not_mem_nil, or_false] at hc
  rcases hc with rfl | rfl | rfl | rfl | rfl | rfl | rfl | rfl
  · rfl
  · rfl
  · rfl
  · rfl
  · rfl
  · rfl
  · rfl
  · rfl

/-- Keys outside the pattern set and the two defaults do not occur in the
extraction record. -/
theorem extrair_lookup_none (extract : String → Option String) (c : String)
    (h1 : ¬ c ∈ pattern_fields) (h2 : c ≠ situacaoKey) (h3 : c ≠ tecnicoKey) :
    alookup (extrair_dados_pdf extract) c = none := by
  rw [extrair_eq]
  simp only [pattern_fields, List.mem_cons, List.not_mem_nil, or_false,
    not_or, numKey, chamadoKey, prazoKey] at h1
  obtain ⟨g1, g2, g3, g4, g5, g6, g7, g8⟩ := h1
  simp only [situacaoKey] at h2
  simp only [tecnicoKey] at h3
  simp [pattern_fields, alookup, numKey, chamadoKey, prazoKey, situacaoKey,
    tecnicoKey, Ne.symm g1, Ne.symm g2, Ne.symm g3, Ne.symm g4, Ne.symm g5,
    Ne.symm g6, Ne.symm g7, Ne.symm g8, Ne.symm h2, Ne.symm h3]

-- Claim C8: PDF path vs manual Create path.

/-- Existing record used in the C8 counterexample. -/
def c8_rec : Rec := [(numKey, FVal.s ("1")), (situacaoKey, FVal.s ("Agendado"))]

/-- Store of the C8 counterexample: order "1" already exists. -/
def c8_store : Store := [("1", c8_rec)]

/-- Extractor of the C8 counterexample: the PDF yields only the order number
"1"; every other pattern is missing. -/
def c8_extract : String → Option String :=
  fun c => if c = numKey then some ("1") else none

/-- C8 counterexample: for the same existing identifier "1", the manual
Create path writes nothing and presents the duplicate choice, while the PDF
path persists directly — the resulting store differs from the untouched one.
The two paths are therefore not behaviourally equivalent on duplicate
identifiers, contradicting the claim. -/
theorem C8_counterexample :
    (prompt_os_id c8_store Session.empty ("1")).1 = c8_store
    ∧ (prompt_os_id c8_store Session.empty ("1")).2.2.1
        = OsIdOutcome.duplicate (aset c8_rec numKey (FVal.s ("1")))
            [String.append ("update_existing_") ("1"), "cancel", "menu"]
    ∧ (processar_pdf c8_store 0 c8_extract).1 ≠ c8_store
    ∧ (processar_pdf c8_store 0 c8_extract).2 = MENU := by
  decide

/-- C8 amended: the PDF path shares nothing with manual Create beyond the
document reference.  When the extracted identifier already exists, the new
fields are merged into the stored document and written back immediately —
no duplicate choice is offered and no per-field validation runs; in
particular an extracted `Prazo` string is persisted verbatim, never parsed
under the date grammar. -/
theorem C8_pdf_persists_directly (store : Store) (now : Int)
    (extract : String → Option String) (n : String) (old : Rec)
    (praw : String)
    (hn : alookup (extrair_dados_pdf extract) numKey = some (FVal.s n))
    (hne : n ≠ "") (hex : alookup store n = some old)
    (hp : extract prazoKey = some praw) :
    processar_pdf store now extract
        = (aset store n
            (aset (dmerge old (adelete (extrair_dados_pdf extract) lembreteKey))
              updatedAtKey (FVal.time now)),
            MENU)
    ∧ alookup ((alookup (processar_pdf store now extract).1 n).getD [])
        prazoKey = some (FVal.s praw) := by
  have hfirst : processar_pdf store now extract
      = (aset store n
          (aset (dmerge old (adelete (extrair_dados_pdf extract) lembreteKey))
            updatedAtKey (FVal.time now)),
          MENU) := by
    simp [processar_pdf, hn, hne, hex]
  refine ⟨hfirst, ?_⟩
  rw [hfirst]
  simp only [alookup_aset_self, Option.getD_some]
  have h1 : prazoKey ≠ updatedAtKey := by decide
  rw [alookup_aset_ne _ _ h1]
  have h2 : prazoKey ≠ lembreteKey := by decide
  have h3 : alookup (adelete (extrair_dados_pdf extract) lembreteKey) prazoKey
      = some (FVal.s praw) := by
    rw [alookup_adelete_ne _ h2]
    rw [extrair_pattern extract prazoKey (by decide), hp]
  exact alookup_dmerge_of_new _ _ h3

/-- Witness for C8's amended statement: a PDF carrying number "2" and the
non-date text "ontem" as `Prazo`, over a store already holding order "2". -/
theorem C8_pdf_persists_directly_witness :
    alookup
      ((alookup
          (processar_pdf [("2", [(numKey, FVal.s ("2"))])] 0
            (fun c =>
              if c = numKey then some ("2")
              else if c = prazoKey then some ("ontem") else none)).1
          ("2")).getD [])
      prazoKey = some (FVal.s ("ontem")) :=
  (C8_pdf_persists_directly [("2", [(numKey, FVal.s ("2"))])] 0
    (fun c =>
      if c = numKey then some ("2")
      else if c = prazoKey then some ("ontem") else none)
    ("2") [(numKey, FVal.s ("2"))] ("ontem") (by decide) (by decide)
    (by decide) (by decide)).2

-- Claim C9: frame effect of a PDF update on an existing order.

/-- Previously stored record of the C9 counterexample: order "1", already
scheduled (`Situação = "Agendado"`). -/
def c9_old : Rec := [(numKey, FVal.s ("1")), (situacaoKey, FVal.s ("Agendado"))]

/-- Store of the C9 counterexample. -/
def c9_store : Store := [("1", c9_old)]

/-- Extractor of the C9 counterexample: only the number pattern matches. -/
def c9_extract : String → Option String :=
  fun c => if c = numKey then some ("1") else none

/-- C9 counterexample: `Situação` is not one of the eight pattern fields,
yet a PDF update of order "1" overwrites its stored value `"Agendado"` with
the default `"Pendente"` — so fields outside the pattern set do not all keep
their prior values, contradicting the claim's frame part. -/
theorem C9_counterexample :
    ¬ (situacaoKey ∈ pattern_fields)
    ∧ alookup c9_old situacaoKey = some (FVal.s ("Agendado"))
    ∧ alookup ((alookup (processar_pdf c9_store 0 c9_extract).1 ("1")).getD [])
        situacaoKey = some (FVal.s ("Pendente")) := by
  decide

/-- C9 amended: when a PDF updates an existing order, every pattern field
other than the identifier whose pattern was not found is written as `None`,
erasing its prior value; in addition `Situação` and `Técnico` are reset to
their defaults (`"Pendente"` / `"Não Definido"`) and `updated_at` is
refreshed; all remaining fields keep their prior values. -/
theorem C9_pdf_update_frame (store : Store) (now : Int)
    (extract : String → Option String) (n : String) (old : Rec)
    (hn : alookup (extrair_dados_pdf extract) numKey = some (FVal.s n))
    (hne : n ≠ "") (hex : alookup store n = some old) :
    (∀ c, c ∈ pattern_fields → c ≠ numKey → extract c = none →
      alookup ((alookup (processar_pdf store now extract).1 n).getD []) c
        = some FVal.null)
    ∧ alookup ((alookup (processar_pdf store now extract).1 n).getD [])
        situacaoKey = some (FVal.s ("Pendente"))
    ∧ alookup ((alookup (processar_pdf store now extract).1 n).getD [])
        tecnicoKey = some (FVal.s ("Não Definido"))
    ∧ (∀ k, ¬ k ∈ pattern_fields → k ≠ situacaoKey → k ≠ tecnicoKey →
        k ≠ updatedAtKey →
        alookup ((alookup (processar_pdf store now extract).1 n).getD []) k
          = alookup old k) := by
  have hfirst : (processar_pdf store now extract).1
      = aset store n
          (aset (dmerge old (adelete (extrair_dados_pdf extract) lembreteKey))
            updatedAtKey (FVal.time now)) := by
    simp [processar_pdf, hn, hne, hex]
  rw [hfirst]
  simp only [alookup_aset_self, Option.getD_some]
  have hpats : ∀ c, c ∈ pattern_fields →
      c ≠ updatedAtKey ∧ c ≠ lembreteKey := by decide
  refine ⟨?_, ?_, ?_, ?_⟩
  · intro c hc hcn hnone
    rw [alookup_aset_ne _ _ (hpats c hc).1]
    refine alookup_dmerge_of_new _ _ ?_
    rw [alookup_adelete_ne _ (hpats c hc).2]
    rw [extrair_pattern extract c hc, hnone]
  · rw [alookup_aset_ne _ _ (by decide : situacaoKey ≠ updatedAtKey)]
    refine alookup_dmerge_of_new _ _ ?_
    rw [alookup_adelete_ne _ (by decide : situacaoKey ≠ lembreteKey)]
    exact extrair_situacao extract
  · rw [alookup_aset_ne _ _ (by decide : tecnicoKey ≠ updatedAtKey)]
    refine alookup_dmerge_of_new _ _ ?_
    rw [alookup_adelete_ne _ (by decide : tecnicoKey ≠ lembreteKey)]
    exact extrair_tecnico extract
  · intro k hk h2 h3 h4
    rw [alookup_aset_ne _ _ h4]
    refine Eq.trans (alookup_dmerge_of_not_new _ _ ?_) rfl
    exact alookup_adelete_none _ k (extrair_lookup_none extract k hk h2 h3)

/-- Witness for C9's amended statement: the C9 counterexample world, where
the missing `Chamado` pattern nulls the stored field and `Agendamento`
survives. -/
theorem C9_pdf_update_frame_witness :
    alookup ((alookup (processar_pdf c9_store 0 c9_extract).1 ("1")).getD [])
        chamadoKey = some FVal.null
    ∧ alookup ((alookup (processar_pdf c9_store 0 c9_extract).1 ("1")).getD [])
        agendamentoKey = alookup c9_old agendamentoKey :=
  ⟨(C9_pdf_update_frame c9_store 0 c9_extract ("1") c9_old (by decide)
      (by decide) (by decide)).1 chamadoKey (by decide) (by decide) (by decide),
    (C9_pdf_update_frame c9_store 0 c9_extract ("1") c9_old (by decide)
      (by decide) (by decide)).2.2.2 agendamentoKey (by decide) (by decide)
      (by decide) (by decide)⟩


-- Claim C10: back navigation.

/-- The `ConversationHandler` routing layer for callback updates (`main`):
whether any `CallbackQueryHandler` registered for `state` — or the
`'^menu$'` fallback — has a pattern matching the payload.  Every handler in
the source carries an explicit pattern; `re.match` anchors at the start, so
a `'^p_'` alternative is a prefix test and a `'^p$'` alternative an exact
test.  States registering only message handlers (which never receive
callback updates) contribute nothing. -/
def callback_handled (state : Int) (data : String) : Bool :=
  (if state = MENU then
    (data = "incluir_os" || data = "atualizar_os" || data = "deletar_os"
        || data = "listar_os" || data = "enviar_pdf" || data = "lembrete_menu"
        || data = "ajuda_geral")
      || pyStartsWith data ("update_existing_")
  else if state = PROMPT_CRITICIDADE then pyStartsWith data ("criticidade_")
  else if state = PROMPT_TIPO then pyStartsWith data ("tipo_")
  else if state = PROMPT_SITUACAO then pyStartsWith data ("situacao_")
  else if state = PROMPT_TECNICO then pyStartsWith data ("tecnico_")
  else if state = RESUMO_INCLUSAO then
    data = "edit_resumo" || data = "confirm_save" || data = "cancel"
  else if state = UPDATE_SELECTION then
    pyStartsWith data ("edit_field_") || pyStartsWith data ("edit_select_")
      || pyStartsWith data ("edit_Técnico_") || data = "confirm_save"
      || data = "show_resumo"
  else if state = CONFIRM_DELETE then
    pyStartsWith data ("confirm_delete_") || data = "menu"
  else if state = LISTAR_TIPO then pyStartsWith data ("list_tipo_")
  else if state = LISTAR_SITUACAO then pyStartsWith data ("list_situacao_")
  else if state = LEMBRETE_MENU then data = "lembrete_manual_start"
  else false)
  || data = "menu"

/-- The effect of one incoming callback update on `(user_data, state)` at
the routing layer: when some registered pattern matches, the selected
handler runs (`run` is the handler semantics, a parameter because the
theorem below holds for every choice of it); when no pattern matches,
python-telegram-bot invokes no handler at all, so the session and the
conversation state pass through unchanged. -/
def conversation_callback_step (run : Int → Session → String → Session × Int)
    (state : Int) (sess : Session) (data : String) : Session × Int :=
  if callback_handled state data then run state sess data else (sess, state)

/-- C10 counterexample: pressing "Etapa Anterior" (payload
`back_PROMPT_DESCRICAO`) during the `Tipo` prompt with a half-built draft.
No registered pattern matches, so — even under handler semantics that
always clear — the session keeps every entered field value and the state is
unchanged: neither is the session cleared nor is it placed in the main-menu
state, contradicting the claim. -/
theorem C10_counterexample :
    conversation_callback_step (fun _ _ _ => (Session.empty, MENU))
        PROMPT_TIPO c3_sess ("back_PROMPT_DESCRICAO")
      = (c3_sess, PROMPT_TIPO)
    ∧ c3_sess ≠ Session.empty
    ∧ PROMPT_TIPO ≠ MENU := by
  decide

/-- C10 amended: a `back_` payload matches no handler pattern registered in
any conversation state, nor the fallbacks, so it never reaches
`callback_handler`: pressing "Etapa Anterior" is a no-op that preserves the
entire session — draft and editing marker included — and the current state.
The `back_` branch inside `callback_handler`, which would clear the session
and return to the menu, is unreachable dead code: were the function ever
invoked, its dispatch chain would route the payload there and its body would
reset everything — but no registration delivers the payload. -/
theorem C10_back_unrouted_noop
    (run : Int → Session → String → Session × Int) (state : Int)
    (sess : Session) (data : String)
    (h : pyStartsWith data ("back_") = true) :
    conversation_callback_step run state sess data = (sess, state)
    ∧ callback_handled state data = false
    ∧ callback_dispatch data = Dispatch.backNav
    ∧ callback_back_branch sess = (Session.empty, MENU) := by
  have hpre : ∃ rest, data.data = ("back_").data ++ rest := by
    obtain ⟨rest, hr⟩ := List.isPrefixOf_iff_prefix.mp h
    exact ⟨rest, hr.symm⟩
  obtain ⟨rest, hdata⟩ := hpre
  have e1 : data ≠ "menu" := fun he => by
    rw [he] at h; exact absurd h (by decide)
  have e2 : data ≠ "incluir_os" := fun he => by
    rw [he] at h; exact absurd h (by decide)
  have e3 : data ≠ "edit_resumo" := fun he => by
    rw [he] at h; exact absurd h (by decide)
  have e4 : data ≠ "confirm_save" := fun he => by
    rw [he] at h; exact absurd h (by decide)
  have e5 : data ≠ "show_resumo" := fun he => by
    rw [he] at h; exact absurd h (by decide)
  have e6 : data ≠ "atualizar_os" := fun he => by
    rw [he] at h; exact absurd h (by decide)
  have e7 : data ≠ "deletar_os" := fun he => by
    rw [he] at h; exact absurd h (by decide)
  have e8 : data ≠ "listar_os" := fun he => by
    rw [he] at h; exact absurd h (by decide)
  have e9 : data ≠ "enviar_pdf" := fun he => by
    rw [he] at h; exact absurd h (by decide)
  have e10 : data ≠ "lembrete_menu" := fun he => by
    rw [he] at h; exact absurd h (by decide)
  have e11 : data ≠ "lembrete_manual_start" := fun he => by
    rw [he] at h; exact absurd h (by decide)
  have e12 : data ≠ "ajuda_geral" := fun he => by
    rw [he] at h; exact absurd h (by decide)
  have e13 : data ≠ "cancel" := fun he => by
    rw [he] at h; exact absurd h (by decide)
  have f1 : pyStartsWith data ("criticidade_") = false := by
    simp [pyStartsWith, hdata, List.isPrefixOf]
  have f2 : pyStartsWith data ("tipo_") = false := by
    simp [pyStartsWith, hdata, List.isPrefixOf]
  have f3 : pyStartsWith data ("situacao_") = false := by
    simp [pyStartsWith, hdata, List.isPrefixOf]
  have f4 : pyStartsWith data ("tecnico_") = false := by
    simp [pyStartsWith, hdata, List.isPrefixOf]
  have f5 : pyStartsWith data ("edit_field_") = false := by
    simp [pyStartsWith, hdata, List.isPrefixOf]
  have f6 : pyStartsWith data ("edit_select_") = false := by
    simp [pyStartsWith, hdata, List.isPrefixOf]
  have f7 : pyStartsWith data ("update_existing_") = false := by
    simp [pyStartsWith, hdata, List.isPrefixOf]
  have f8 : pyStartsWith data ("confirm_delete_") = false := by
    simp [pyStartsWith, hdata, List.isPrefixOf]
  have f9 : pyStartsWith data ("list_tipo_") = false := by
    simp [pyStartsWith, hdata, List.isPrefixOf]
  have f10 : pyStartsWith data ("list_situacao_") = false := by
    simp [pyStartsWith, hdata, List.isPrefixOf]
  have f11 : pyStartsWith data ("edit_Técnico_") = false := by
    simp [pyStartsWith, hdata, List.isPrefixOf]
  have hunhandled : callback_handled state data = false := by
    simp [callback_handled, e1, e2, e3, e4, e5, e6, e7, e8, e9, e10, e11, e12,
      e13, f1, f2, f3, f4, f5, f6, f7, f8, f9, f10, f11]
  refine ⟨?_, hunhandled, ?_, rfl⟩
  · simp [conversation_callback_step, hunhandled]
  · simp [callback_dispatch, e1, e2, e3, e4, e5, e6, e7, e8, e9, e10, e11, e12,
      f1, f2, f3, f4, f5, f6, f7, f8, f9, f10, h]

/-- Witness for C10's amended statement: the "Etapa Anterior" button of the
`Criticidade` prompt, pressed from a session holding a draft. -/
theorem C10_back_unrouted_noop_witness :
    conversation_callback_step (fun _ _ _ => (Session.empty, MENU))
        PROMPT_CRITICIDADE c3_sess ("back_PROMPT_TIPO")
      = (c3_sess, PROMPT_CRITICIDADE)
    ∧ callback_handled PROMPT_CRITICIDADE ("back_PROMPT_TIPO") = false :=
  ⟨(C10_back_unrouted_noop (fun _ _ _ => (Session.empty, MENU))
      PROMPT_CRITICIDADE c3_sess ("back_PROMPT_TIPO") (by decide)).1,
    (C10_back_unrouted_noop (fun _ _ _ => (Session.empty, MENU))
      PROMPT_CRITICIDADE c3_sess ("back_PROMPT_TIPO") (by decide)).2.1⟩
